import Mathlib

/-!
Shallow embedding of the multi-provider query fallback orchestration of the
clinical-trial document-assistant frontend: the ChatPDF provider client with
its source-id cache (chatPDFService), the response adapters, and the fallback
orchestrator (backendFallbackService).  Network and environment effects are
modelled by explicit oracle records passed to each operation; machine numbers
are Int / Rat with exact arithmetic.
-/

deriving instance DecidableEq for Except

/-- JavaScript truthiness of an optional string (undefined and the empty string are falsy). -/
def jsTruthyOpt : Option String → Bool
  | some s => !(s == "")
  | none => false

/-- JS expression a || b for an optional string with a string default. -/
def jsOrStr : Option String → String → String
  | some s, d => if s = "" then d else s
  | none, d => d

/-- JS expression a || b chaining two optional strings. -/
def jsOrOpt : Option String → Option String → Option String
  | some s, b => if s = "" then b else some s
  | none, b => b

/-- JS expression a || b for an optional number with a numeric default (0 is falsy). -/
def jsOrInt : Option Int → Int → Int
  | some v, d => if v = 0 then d else v
  | none, d => d

/-- JS String.prototype.includes: contiguous-substring test. -/
def substrB (needle haystack : String) : Bool :=
  decide (needle.data <:+: haystack.data)

/-- JS String.prototype.toLowerCase (on the ASCII range the services use). -/
def lowerStr (s : String) : String :=
  String.mk (s.data.map Char.toLower)

/-- JS template interpolation of a possibly-undefined number. -/
def optIntToTemplate : Option Int → String
  | some v => toString v
  | none => "undefined"

/-- A thrown JavaScript value, as far as the services inspect it:
its name, its message, whether it is an instance of Error, and whether it
is an instance of TypeError. -/
structure JsError where
  name : String := "Error"
  message : Option String := none
  isError : Bool := true
  isTypeError : Bool := false
deriving Repr, DecidableEq

/-- A plain JS Error with the given message, as thrown by new Error(m). -/
def mkError (m : String) : JsError :=
  { name := "Error", message := some m, isError := true, isTypeError := false }

/-- The import.meta.env configuration the two services read. -/
structure EnvConfig where
  VITE_USE_CHATPDF : Option String
  VITE_CHATPDF_ACCESS_KEY : Option String
deriving Repr, DecidableEq

/-- chatPDFService.isChatPDFEnabled. -/
def isChatPDFEnabled (c : EnvConfig) : Bool :=
  (c.VITE_USE_CHATPDF == some "true") && jsTruthyOpt c.VITE_CHATPDF_ACCESS_KEY

/-- chatPDFService.shouldUseChatPDFAsPrimary. -/
def shouldUseChatPDFAsPrimary (c : EnvConfig) : Bool :=
  c.VITE_USE_CHATPDF == some "true"

/-- getChatPDFService returns a service instance iff the API key is truthy. -/
def chatPDFServicePresent (c : EnvConfig) : Bool :=
  jsTruthyOpt c.VITE_CHATPDF_ACCESS_KEY

/-- ChatPDFService.isAvailable for an instance constructed with apiKey. -/
def isAvailable (apiKey : String) : Bool :=
  !(apiKey == "") && decide (apiKey.length > 0)

/-- The documentData record handed to the orchestrator by the caller. -/
structure DocumentData where
  document_name : Option String := none
  document_url : Option String := none
  file_url : Option String := none
  file_size : Option Int := none
  mime_type : Option String := none
deriving Repr, DecidableEq

/-- chatPDFService DocumentInfo. -/
structure DocumentInfo where
  id : String
  name : String
  url : Option String := none
  file_size : Option Int := none
  mime_type : Option String := none
deriving Repr, DecidableEq

/-- One entry of the raw references array of the chat provider response
(the typed interface has only pageNumber; the degrade path also reads
name and bboxes off the raw record). -/
structure PageRef where
  pageNumber : Int
  name : Option String := none
  bboxes : Option (List (List Int)) := none
deriving Repr, DecidableEq

/-- One entry of ChatPDFQueryResponse.sources.  The sectionLabel field embeds
the source field spelled "section" (a Lean keyword). -/
structure ChatSource where
  page : Int
  sectionLabel : Option String := none
  exactText : String
  relevance : String
  context : String
  highlightURL : Option String := none
  bboxes : Option (List (List Int)) := none
  name : Option String := none
deriving Repr, DecidableEq

/-- chatPDFService ChatPDFQueryResponse. -/
structure ChatPDFQueryResponse where
  content : String
  references : List PageRef
  sources : Option (List ChatSource) := none
deriving Repr, DecidableEq

/-- Network outcome oracle for the POST sources/add-url call. -/
structure UploadOutcome where
  netError : Option JsError := none
  ok : Bool := true
  errMessage : Option String := none
  errError : String := ""
  sourceId : String := ""
deriving Repr, DecidableEq

/-- ChatPDFService.uploadDocumentByUrl against the given network outcome. -/
def uploadDocumentByUrl (o : UploadOutcome) : Except JsError String :=
  match o.netError with
  | some e => .error e
  | none =>
    if o.ok then .ok o.sourceId
    else .error (mkError ("ChatPDF Upload Error: " ++ jsOrStr o.errMessage o.errError))

/-- The sourceCache Map, documentId to sourceId. -/
abbrev CPCache := List (String × String)

/-- Map.get / Map.has of the source cache. -/
def mapGet? : CPCache → String → Option String
  | [], _ => none
  | (k', v) :: rest, k => if k' = k then some v else mapGet? rest k

/-- Map.set of the source cache. -/
def mapSet : CPCache → String → String → CPCache
  | [], k, v => [(k, v)]
  | (k', v') :: rest, k, v => if k' = k then (k, v) :: rest else (k', v') :: mapSet rest k v

/-- Result of getSourceId together with the cache after the call and the
number of upload network calls made. -/
structure GetSourceResult where
  result : Except JsError String
  cache : CPCache
  uploadCalls : Nat
deriving Repr, DecidableEq

/-- ChatPDFService.getSourceId: cache lookup first, else upload by URL and
cache the sourceId only after the upload succeeded. -/
def getSourceId (cache : CPCache) (document : DocumentInfo) (o : UploadOutcome) :
    GetSourceResult :=
  match mapGet? cache document.id with
  | some cachedSourceId => { result := .ok cachedSourceId, cache := cache, uploadCalls := 0 }
  | none =>
    if jsTruthyOpt document.url then
      match uploadDocumentByUrl o with
      | .ok sourceId =>
          { result := .ok sourceId,
            cache := mapSet cache document.id sourceId, uploadCalls := 1 }
      | .error e => { result := .error e, cache := cache, uploadCalls := 1 }
    else
      { result := .error (mkError "Document URL is required for ChatPDF upload"),
        cache := cache, uploadCalls := 0 }

/-- Network outcome oracle for the POST chats/message call. -/
structure ChatMessageOutcome where
  netError : Option JsError := none
  ok : Bool := true
  errMessage : Option String := none
  errError : String := ""
  content : String := ""
  references : Option (List PageRef) := none
deriving Repr, DecidableEq

/-- The degraded coarse citation built from a raw page reference when
source extraction fails inside queryDocument. -/
def degradeRef (documentInfo : DocumentInfo) (ref : PageRef) : ChatSource :=
  { page := ref.pageNumber,
    sectionLabel := some ("Page " ++ toString ref.pageNumber),
    exactText := "Content from page " ++ toString ref.pageNumber,
    relevance := "medium",
    context := "Basic page reference from ChatPDF",
    highlightURL := documentInfo.url,
    name := some (jsOrStr ref.name documentInfo.name),
    bboxes := ref.bboxes }

/-- ChatPDFService.queryDocument, with the chats/message network outcome and
the source-extraction outcome supplied as oracles. -/
def queryDocument (mo : ChatMessageOutcome)
    (extraction : Except JsError (List ChatSource))
    (extractSources : Bool) (documentInfo : Option DocumentInfo) :
    Except JsError ChatPDFQueryResponse :=
  match mo.netError with
  | some e => .error e
  | none =>
    if mo.ok then
      let refs := mo.references.getD []
      match extractSources, documentInfo with
      | true, some di =>
        match extraction with
        | .ok extracted =>
            .ok { content := mo.content, references := refs, sources := some extracted }
        | .error _ =>
            .ok { content := mo.content, references := refs,
                  sources := some (refs.map (degradeRef di)) }
      | _, _ => .ok { content := mo.content, references := refs, sources := none }
    else
      .error (mkError ("ChatPDF Query Error: " ++ jsOrStr mo.errMessage mo.errError))

/-- One entry of BackendResponse.sources.  sectionLabel embeds the source
field spelled "section". -/
structure BFSource where
  sectionLabel : String
  page : Option Int := none
  content : String
  exactText : Option String := none
  relevance : Option String := none
  context : Option String := none
  highlightURL : Option String := none
  bboxes : Option (List (List Int)) := none
  name : Option String := none
deriving Repr, DecidableEq

/-- backendFallbackService BackendResponse. -/
structure BackendResponse where
  response : String
  sources : List BFSource
  source : String
  timestamp : Int
deriving Repr, DecidableEq

/-- backendFallbackService BackendError. -/
structure BackendError where
  error : String
  source : String
  canRetry : Bool
  suggestFallback : Bool
deriving Repr, DecidableEq

/-- A value thrown out of the orchestrator: either a JS error propagated
from a provider call or a structured BackendError object. -/
inductive Thrown where
  | js (e : JsError)
  | backend (be : BackendError)
deriving Repr, DecidableEq

/-- The case-insensitive retryable-substring test of shouldUseFallback. -/
def containsRetrySubstr (message : String) : Bool :=
  substrB "500" message || substrB "502" message || substrB "503" message ||
  substrB "504" message || substrB "network" message || substrB "timeout" message ||
  substrB "connection" message

/-- BackendFallbackService.shouldUseFallback. -/
def shouldUseFallback (error : JsError) : Bool :=
  if error.name == "AbortError" || error.name == "TimeoutError" then true
  else if jsTruthyOpt error.message
      && containsRetrySubstr (lowerStr (error.message.getD "")) then true
  else if error.isTypeError && substrB "fetch" (error.message.getD "") then true
  else false

/-- BackendFallbackService.createBackendError (chatServicePresent stands for
the truthiness of getChatPDFService()). -/
def createBackendError (error : JsError) (source : String) (chatServicePresent : Bool) :
    BackendError :=
  { error := if error.isError then error.message.getD "" else "Unknown error",
    source := source,
    canRetry := shouldUseFallback error,
    suggestFallback := (source == "primary") && chatServicePresent }

/-- BackendFallbackService.createFallbackError. -/
def createFallbackError (primaryError fallbackError : JsError) : BackendError :=
  let primaryMsg :=
    if primaryError.isError then primaryError.message.getD "" else "Primary backend failed"
  let fallbackMsg :=
    if fallbackError.isError then fallbackError.message.getD "" else "ChatPDF fallback failed"
  { error := "Both services failed. Primary: " ++ primaryMsg ++ ". Fallback: " ++ fallbackMsg,
    source := "primary",
    canRetry := false,
    suggestFallback := false }

/-- The documentInfo record queryWithChatPDF builds from its inputs. -/
def buildDocumentInfo (documentId : String) (documentData : Option DocumentData) :
    DocumentInfo :=
  { id := documentId,
    name := jsOrStr (documentData.bind (·.document_name)) ("Document " ++ documentId),
    url := jsOrOpt (documentData.bind (·.document_url)) (documentData.bind (·.file_url)),
    file_size := documentData.bind (·.file_size),
    mime_type := documentData.bind (·.mime_type) }

/-- queryWithChatPDF mapping of an enhanced chat source into a
BackendResponse source. -/
def mapEnhancedSource (source : ChatSource) : BFSource :=
  { sectionLabel := jsOrStr source.sectionLabel ("Page " ++ toString source.page),
    page := some source.page,
    content := source.exactText,
    exactText := some source.exactText,
    context := some source.context,
    relevance := some source.relevance,
    highlightURL := source.highlightURL,
    bboxes := match source.bboxes with
      | some bs => if 0 < bs.length then some bs else none
      | none => none,
    name := some (source.name.getD "Unknown") }

/-- queryWithChatPDF mapping of a basic page reference into a
BackendResponse source. -/
def mapBasicRef (documentInfo : DocumentInfo) (ref : PageRef) : BFSource :=
  let highlightURL := if jsTruthyOpt documentInfo.url
    then some ((documentInfo.url.getD "") ++ "#page=" ++ toString ref.pageNumber)
    else none
  { sectionLabel := "Page " ++ toString ref.pageNumber,
    page := some ref.pageNumber,
    content := "Content from page " ++ toString ref.pageNumber,
    highlightURL := highlightURL }

/-- Result of queryWithChatPDF together with the cache after the call and
the number of ChatPDF API network calls (upload plus chat message) made. -/
structure ChatCallResult where
  result : Except JsError BackendResponse
  cache : CPCache
  netCalls : Nat
deriving Repr, DecidableEq

/-- BackendFallbackService.queryWithChatPDF. -/
def queryWithChatPDF (servicePresent : Bool) (cache : CPCache)
    (upload : UploadOutcome) (mo : ChatMessageOutcome)
    (extraction : Except JsError (List ChatSource))
    (message documentId : String) (documentData : Option DocumentData) (now : Int) :
    ChatCallResult :=
  if servicePresent then
    let documentInfo := buildDocumentInfo documentId documentData
    if jsTruthyOpt documentInfo.url then
      let g := getSourceId cache documentInfo upload
      match g.result with
      | .error e => { result := .error e, cache := g.cache, netCalls := g.uploadCalls }
      | .ok _ =>
        match queryDocument mo extraction true (some documentInfo) with
        | .error e =>
            { result := .error e, cache := g.cache, netCalls := g.uploadCalls + 1 }
        | .ok resp =>
          let sources := match resp.sources with
            | some srcs => srcs.map mapEnhancedSource
            | none => resp.references.map (mapBasicRef documentInfo)
          let payload : BackendResponse :=
            { response := resp.content, sources := sources,
              source := "chatpdf", timestamp := now }
          { result := .ok payload, cache := g.cache, netCalls := g.uploadCalls + 1 }
    else
      { result := .error (mkError "Document URL is required for ChatPDF processing"),
        cache := cache, netCalls := 0 }
  else
    { result := .error (mkError "ChatPDF service is not available"),
      cache := cache, netCalls := 0 }

/-- The successful payload of queryPrimaryBackend. -/
structure PrimRes where
  response : String
  sources : List BFSource
deriving Repr, DecidableEq

/-- Per-query network environment of the orchestrator: the primary backend
outcome and the ChatPDF-side oracles. -/
structure QueryEnv where
  primary : Except JsError PrimRes
  upload : UploadOutcome := {}
  msg : ChatMessageOutcome := {}
  extraction : Except JsError (List ChatSource) := .ok []
  now : Int := 0
deriving Repr, DecidableEq

/-- backendFallbackService QueryOptions (the fields the control flow reads). -/
structure QueryOptions where
  message : String
  documentId : String
  documentData : Option DocumentData := none
  userId : String := ""
deriving Repr, DecidableEq

/-- Result of the orchestrator query together with the cache after the call,
the number of invocations of queryWithChatPDF, and the number of ChatPDF API
network calls made. -/
structure QueryResult where
  result : Except Thrown BackendResponse
  cache : CPCache
  fallbackInvocations : Nat
  chatNetCalls : Nat
deriving Repr, DecidableEq

/-- Propagate a JS error thrown by queryWithChatPDF unchanged. -/
def liftJsResult : Except JsError BackendResponse → Except Thrown BackendResponse
  | .ok r => .ok r
  | .error e => .error (.js e)

/-- BackendFallbackService.query. -/
def query (cfg : EnvConfig) (env : QueryEnv) (cache : CPCache) (options : QueryOptions) :
    QueryResult :=
  if shouldUseChatPDFAsPrimary cfg then
    let c := queryWithChatPDF (chatPDFServicePresent cfg) cache env.upload env.msg
      env.extraction options.message options.documentId options.documentData env.now
    { result := liftJsResult c.result, cache := c.cache,
      fallbackInvocations := 1, chatNetCalls := c.netCalls }
  else
    match env.primary with
    | .ok r =>
      let payload : BackendResponse :=
        { response := r.response, sources := r.sources,
          source := "primary", timestamp := env.now }
      { result := .ok payload, cache := cache, fallbackInvocations := 0, chatNetCalls := 0 }
    | .error primaryError =>
      if chatPDFServicePresent cfg && shouldUseFallback primaryError then
        let c := queryWithChatPDF (chatPDFServicePresent cfg) cache env.upload env.msg
          env.extraction options.message options.documentId options.documentData env.now
        match c.result with
        | .ok resp =>
          { result := .ok resp, cache := c.cache,
            fallbackInvocations := 1, chatNetCalls := c.netCalls }
        | .error fallbackError =>
          { result := .error (.backend (createFallbackError primaryError fallbackError)),
            cache := c.cache, fallbackInvocations := 1, chatNetCalls := c.netCalls }
      else
        { result := .error (.backend (createBackendError primaryError "primary"
            (chatPDFServicePresent cfg))),
          cache := cache, fallbackInvocations := 0, chatNetCalls := 0 }

/-- A raw source record as consumed by the response adapters (every field
may be absent). -/
structure RawSource where
  page : Option Int := none
  sectionLabel : Option String := none
  exactText : Option String := none
  content : Option String := none
  relevance : Option String := none
  context : Option String := none
  highlightURL : Option String := none
  bboxes : Option (List (List Int)) := none
  name : Option String := none
deriving Repr, DecidableEq

/-- aiResponseAdapter UnifiedSource. -/
structure UnifiedSource where
  page : Int
  sectionLabel : String
  exactText : String
  relevance : String
  context : String
  highlightURL : String
  bboxes : Option (List (List Int)) := none
  name : Option String := none
deriving Repr, DecidableEq

/-- A raw response record as consumed by the response adapters. -/
structure RawBackendResponse where
  response : String
  sources : Option (List RawSource) := none
  source : Option String := none
  timestamp : Option Int := none
  cost : Option ℚ := none
  model : Option String := none
deriving Repr, DecidableEq

/-- aiResponseAdapter UnifiedAIResponse. -/
structure UnifiedAIResponse where
  response : String
  sources : List UnifiedSource
  source : String
  timestamp : Int
  cost : Option ℚ := none
  model : Option String := none
deriving Repr, DecidableEq

/-- Per-source mapping of adaptBackendResponse. -/
def adaptBackendSource (source : RawSource) : UnifiedSource :=
  { page := jsOrInt source.page 0,
    sectionLabel := jsOrStr source.sectionLabel "Document Section",
    exactText := jsOrStr source.exactText (jsOrStr source.content ""),
    relevance := jsOrStr source.relevance "medium",
    context := jsOrStr source.context "Context from backend analysis",
    highlightURL := jsOrStr source.highlightURL "",
    bboxes := match source.bboxes with
      | some bs => if 0 < bs.length then some bs else none
      | none => none,
    name := some (source.name.getD "Unknown") }

/-- aiResponseAdapter.adaptBackendResponse (now stands for Date.now()). -/
def adaptBackendResponse (backendResponse : RawBackendResponse) (now : Int) :
    UnifiedAIResponse :=
  { response := backendResponse.response,
    sources := (backendResponse.sources.getD []).map adaptBackendSource,
    source := jsOrStr backendResponse.source "backend",
    timestamp := jsOrInt backendResponse.timestamp now,
    cost := backendResponse.cost,
    model := backendResponse.model }

/-- Per-source mapping of adaptChatPDFResponse. -/
def adaptChatPDFSource (documentUrl : String) (source : RawSource) : UnifiedSource :=
  { page := jsOrInt source.page 0,
    sectionLabel := jsOrStr source.sectionLabel "Document Section",
    exactText := jsOrStr source.exactText (jsOrStr source.content ""),
    relevance := jsOrStr source.relevance "high",
    context := jsOrStr source.context "Context from ChatPDF analysis",
    highlightURL := jsOrStr source.highlightURL
      (documentUrl ++ "#page=" ++ optIntToTemplate source.page),
    bboxes := none,
    name := none }

/-- aiResponseAdapter.adaptChatPDFResponse (now stands for Date.now()). -/
def adaptChatPDFResponse (chatPDFResponse : RawBackendResponse) (documentUrl : String)
    (now : Int) : UnifiedAIResponse :=
  { response := chatPDFResponse.response,
    sources := (chatPDFResponse.sources.getD []).map (adaptChatPDFSource documentUrl),
    source := "chatpdf",
    timestamp := jsOrInt chatPDFResponse.timestamp now,
    cost := chatPDFResponse.cost,
    model := some "ChatPDF + OpenAI GPT-4o-mini" }

/-- One citation of a raw Claude response; chunk_index flattens the
citation.source?.chunk_index access. -/
structure ClaudeCitation where
  content : Option String := none
  chunk_index : Option Int := none
deriving Repr, DecidableEq

/-- A raw Claude response as consumed by adaptAnthropicResponse. -/
structure ClaudeResponse where
  content : String
  citations : Option (List ClaudeCitation) := none
  model : Option String := none
deriving Repr, DecidableEq

/-- The Haiku 3.5 cost formula of adaptAnthropicResponse, in exact rationals:
(inputTokens * 0.8 + outputTokens * 4) / 1000000. -/
def anthropicCost (inputTokens outputTokens : ℕ) : ℚ :=
  ((inputTokens : ℚ) * 0.8 + (outputTokens : ℚ) * 4) / 1000000

/-- aiResponseAdapter.adaptAnthropicResponse (now stands for Date.now()). -/
def adaptAnthropicResponse (claudeResponse : ClaudeResponse) (documentUrl : String)
    (inputTokens outputTokens : ℕ) (now : Int) : UnifiedAIResponse :=
  { response := claudeResponse.content,
    sources := (claudeResponse.citations.getD []).map (fun citation =>
      { page := jsOrInt citation.chunk_index 0,
        sectionLabel := "Claude Citation",
        exactText := jsOrStr citation.content "",
        relevance := "high",
        context := "Citation from Claude analysis",
        highlightURL := documentUrl ++ "#page=" ++ optIntToTemplate citation.chunk_index,
        bboxes := none, name := none }),
    source := "anthropic",
    timestamp := now,
    cost := some (anthropicCost inputTokens outputTokens),
    model := some (jsOrStr claudeResponse.model "claude-3-5-haiku-20241022") }

/-! Concrete values used by witnesses and counterexamples. -/

def err503 : JsError := mkError "Primary backend error: 503 Service Unavailable"

def errAbort : JsError := { name := "AbortError", message := some "The user aborted a request." }

def errTimeoutMsg : JsError := mkError "Request timeout exceeded"

def err400 : JsError := mkError "Primary backend error: 400 Bad Request"

def errNetwork : JsError := mkError "network down"

def feUpload : JsError := mkError "ChatPDF Upload Error: boom"

def exAssistErr : JsError := mkError "assist down"

def cfgKeyOnly : EnvConfig :=
  { VITE_USE_CHATPDF := none, VITE_CHATPDF_ACCESS_KEY := some "key123" }

def cfgNoKey : EnvConfig :=
  { VITE_USE_CHATPDF := some "true", VITE_CHATPDF_ACCESS_KEY := none }

def exDocData : DocumentData :=
  { document_name := some "Protocol", document_url := some "https://docs.example/p.pdf" }

def exDocInfo : DocumentInfo :=
  { id := "doc1", name := "Protocol", url := some "https://docs.example/p.pdf" }

def exDocNoUrl : DocumentInfo := { id := "doc2", name := "NoUrl", url := none }

def exOpts : QueryOptions :=
  { message := "inclusion criteria", documentId := "doc1",
    documentData := some exDocData, userId := "tok" }

def exPrimRes : PrimRes := { response := "answer", sources := [] }

def uploadOk : UploadOutcome := { sourceId := "src1" }

def uploadOk2 : UploadOutcome := { sourceId := "src2" }

def uploadFail : UploadOutcome := { ok := false, errMessage := some "boom", errError := "ERR" }

def msgOk5 : ChatMessageOutcome :=
  { content := "chat answer", references := some [{ pageNumber := 5 }] }

def envPrimaryOk : QueryEnv := { primary := .ok exPrimRes }

def envBothFail : QueryEnv :=
  { primary := .error err503, upload := uploadFail, msg := msgOk5, extraction := .ok [] }

def rawNoHighlight : RawSource :=
  { page := some 3, content := some "Text", bboxes := some [[1, 2, 3, 4]] }

def respNoHighlight : RawBackendResponse :=
  { response := "r", sources := some [rawNoHighlight], source := some "primary",
    timestamp := some 1 }

def rawNegPage : RawSource := { page := some (-1), content := some "c" }

def respNegPage : RawBackendResponse := { response := "r", sources := some [rawNegPage] }

def rawPos : RawSource := { page := some 3, content := some "c" }

def rawEmpty : RawSource := {}

def exDegradedSource : BFSource :=
  { sectionLabel := "Page 5", page := some 5,
    content := "Content from page 5", exactText := some "Content from page 5",
    relevance := some "medium", context := some "Basic page reference from ChatPDF",
    highlightURL := some "https://docs.example/p.pdf",
    bboxes := none, name := some "Protocol" }

def exDegradedResponse : BackendResponse :=
  { response := "chat answer", sources := [exDegradedSource],
    source := "chatpdf", timestamp := 7 }

/-! Helper lemmas shared by the claim theorems. -/

theorem data_append (a b : String) : (a ++ b).data = a.data ++ b.data := rfl

theorem substrB_true_of_parts (pre s post : String)
    (h : pre.data ++ s.data ++ post.data = (pre ++ s ++ post).data) :
    substrB s (pre ++ s ++ post) = true := by
  unfold substrB
  exact decide_eq_true ⟨pre.data, post.data, h⟩

theorem substr_left (a pm mid fm : String) : substrB pm (a ++ pm ++ mid ++ fm) = true := by
  unfold substrB
  apply decide_eq_true
  refine ⟨a.data, mid.data ++ fm.data, ?_⟩
  simp [data_append, List.append_assoc]

theorem substr_right (a pm mid fm : String) : substrB fm (a ++ pm ++ mid ++ fm) = true := by
  unfold substrB
  apply decide_eq_true
  refine ⟨a.data ++ pm.data ++ mid.data, [], ?_⟩
  simp [data_append, List.append_assoc]

theorem mapGet?_mapSet (c : CPCache) (k v : String) : mapGet? (mapSet c k v) k = some v := by
  induction c with
  | nil => simp [mapSet, mapGet?]
  | cons hd tl ih =>
    obtain ⟨k', v'⟩ := hd
    by_cases h : k' = k <;> simp [mapSet, mapGet?, h, ih]

theorem containsRetrySubstr_empty : containsRetrySubstr (lowerStr "") = false := by decide

theorem substr_fetch_empty : substrB "fetch" "" = false := by decide

/-- C1: shouldUseFallback returns true iff the error name is AbortError or
TimeoutError, or the lowercased message contains one of the substrings 500,
502, 503, 504, network, timeout, connection, or the error is a TypeError
whose message mentions fetch; in particular an HTTP 503 error, an AbortError
and a message containing timeout yield true, while an HTTP 400 error yields
false. -/
theorem shouldUseFallback_spec :
    (∀ e : JsError, shouldUseFallback e = true ↔
      (e.name = "AbortError" ∨ e.name = "TimeoutError"
        ∨ (∃ m, e.message = some m ∧ containsRetrySubstr (lowerStr m) = true)
        ∨ (e.isTypeError = true ∧ ∃ m, e.message = some m ∧ substrB "fetch" m = true)))
    ∧ shouldUseFallback err503 = true
    ∧ shouldUseFallback errAbort = true
    ∧ shouldUseFallback errTimeoutMsg = true
    ∧ shouldUseFallback err400 = false := by
  refine ⟨fun e => ?_, by decide, by decide, by decide, by decide⟩
  obtain ⟨n, msg, isErr, isTE⟩ := e
  cases msg with
  | none =>
    simp only [shouldUseFallback, jsTruthyOpt, Option.getD_none, Bool.and_false,
      Bool.false_and, substr_fetch_empty, Bool.and_eq_true]
    by_cases h1 : n = "AbortError" <;> by_cases h2 : n = "TimeoutError" <;>
      simp [h1, h2]
  | some m =>
    by_cases hm : m = ""
    · subst hm
      simp only [shouldUseFallback, jsTruthyOpt, Option.getD_some,
        containsRetrySubstr_empty, substr_fetch_empty, Bool.and_false, Bool.false_and,
        Option.some.injEq]
      by_cases h1 : n = "AbortError" <;> by_cases h2 : n = "TimeoutError" <;>
        cases isTE <;> simp_all [containsRetrySubstr_empty, substr_fetch_empty]
    · simp only [shouldUseFallback, jsTruthyOpt, Option.getD_some, Option.some.injEq]
      by_cases h1 : n = "AbortError" <;> by_cases h2 : n = "TimeoutError" <;>
        by_cases hcr : containsRetrySubstr (lowerStr m) = true <;>
        by_cases hft : substrB "fetch" m = true <;>
        cases isTE <;> simp_all [hm]

/-- C1 witness: the specification equivalence instantiated at a concrete
network-failure error. -/
theorem shouldUseFallback_spec_witness :
    shouldUseFallback errNetwork = true ↔
      (errNetwork.name = "AbortError" ∨ errNetwork.name = "TimeoutError"
        ∨ (∃ m, errNetwork.message = some m ∧ containsRetrySubstr (lowerStr m) = true)
        ∨ (errNetwork.isTypeError = true ∧
            ∃ m, errNetwork.message = some m ∧ substrB "fetch" m = true)) :=
  shouldUseFallback_spec.1 errNetwork

/-- C2: when the third-party provider is not the forced primary and the
primary backend call succeeds, query returns the primary-tagged response and
the ChatPDF fallback client is never invoked (zero invocations, zero ChatPDF
network calls, cache untouched). -/
theorem query_primary_success (cfg : EnvConfig) (env : QueryEnv) (cache : CPCache)
    (options : QueryOptions) (r : PrimRes)
    (hforced : shouldUseChatPDFAsPrimary cfg = false)
    (hok : env.primary = .ok r) :
    query cfg env cache options =
      { result := .ok
          { response := r.response, sources := r.sources,
            source := "primary", timestamp := env.now },
        cache := cache, fallbackInvocations := 0, chatNetCalls := 0 } := by
  simp [query, hforced, hok]

/-- C2 witness: a concrete primary success is tagged primary with zero
fallback calls. -/
theorem query_primary_success_witness :
    shouldUseChatPDFAsPrimary cfgKeyOnly = false ∧
    query cfgKeyOnly envPrimaryOk [] exOpts =
      { result := .ok
          { response := exPrimRes.response, sources := exPrimRes.sources,
            source := "primary", timestamp := envPrimaryOk.now },
        cache := [], fallbackInvocations := 0, chatNetCalls := 0 } :=
  ⟨by decide, query_primary_success cfgKeyOnly envPrimaryOk [] exOpts exPrimRes
    (by decide) (by decide)⟩

/-- C4: a document whose id is cached yields the cached sourceId with no
upload call, and starting from a cache miss a successful first call uploads
exactly once and the second call for the same document uploads zero times,
so two successive calls perform exactly one upload. -/
theorem getSourceId_cache_single_upload
    (cache : CPCache) (document : DocumentInfo) (o1 o2 : UploadOutcome) (sid : String) :
    (mapGet? cache document.id = some sid →
      getSourceId cache document o1 =
        { result := .ok sid, cache := cache, uploadCalls := 0 })
    ∧ (mapGet? cache document.id = none → jsTruthyOpt document.url = true →
        o1.netError = none → o1.ok = true →
        getSourceId cache document o1 =
          { result := .ok o1.sourceId,
            cache := mapSet cache document.id o1.sourceId, uploadCalls := 1 }
        ∧ getSourceId (mapSet cache document.id o1.sourceId) document o2 =
          { result := .ok o1.sourceId,
            cache := mapSet cache document.id o1.sourceId, uploadCalls := 0 }) := by
  constructor
  · intro h
    simp [getSourceId, h]
  · intro hmiss hurl hnet hok
    constructor
    · simp [getSourceId, hmiss, hurl, uploadDocumentByUrl, hnet, hok]
    · simp [getSourceId, mapGet?_mapSet]

/-- C4 witness: concrete double call with a single upload. -/
theorem getSourceId_cache_single_upload_witness :
    (mapGet? ([] : CPCache) exDocInfo.id = none ∧ jsTruthyOpt exDocInfo.url = true) ∧
    (getSourceId ([] : CPCache) exDocInfo uploadOk =
        { result := .ok uploadOk.sourceId,
          cache := mapSet [] exDocInfo.id uploadOk.sourceId, uploadCalls := 1 }
      ∧ getSourceId (mapSet [] exDocInfo.id uploadOk.sourceId) exDocInfo uploadOk2 =
        { result := .ok uploadOk.sourceId,
          cache := mapSet [] exDocInfo.id uploadOk.sourceId, uploadCalls := 0 }) :=
  ⟨by decide, (getSourceId_cache_single_upload [] exDocInfo uploadOk uploadOk2 "x").2
    (by decide) (by decide) (by decide) (by decide)⟩

/-- C5: the cache is populated only after a successful upload: every failing
getSourceId call (missing URL, or the upload throwing) rethrows and leaves
the cache unchanged. -/
theorem getSourceId_no_cache_on_error
    (cache : CPCache) (document : DocumentInfo) (o : UploadOutcome) :
    (∀ e, (getSourceId cache document o).result = .error e →
      (getSourceId cache document o).cache = cache)
    ∧ (mapGet? cache document.id = none → jsTruthyOpt document.url = false →
        getSourceId cache document o =
          { result := .error (mkError "Document URL is required for ChatPDF upload"),
            cache := cache, uploadCalls := 0 })
    ∧ (mapGet? cache document.id = none → jsTruthyOpt document.url = true →
        ∀ e, uploadDocumentByUrl o = .error e →
        getSourceId cache document o =
          { result := .error e, cache := cache, uploadCalls := 1 }) := by
  refine ⟨?_, ?_, ?_⟩
  · intro e
    unfold getSourceId
    cases hget : mapGet? cache document.id with
    | some sid => simp
    | none =>
      by_cases hurl : jsTruthyOpt document.url
      · cases hup : uploadDocumentByUrl o <;> simp [hurl, hup]
      · simp [hurl]
  · intro hmiss hurl
    simp [getSourceId, hmiss, hurl]
  · intro hmiss hurl e hup
    simp [getSourceId, hmiss, hurl, hup]

/-- C5 witness: a document with no URL fails fast and leaves the cache
unchanged. -/
theorem getSourceId_no_cache_on_error_witness :
    (mapGet? ([] : CPCache) exDocNoUrl.id = none ∧ jsTruthyOpt exDocNoUrl.url = false) ∧
    getSourceId ([] : CPCache) exDocNoUrl uploadOk =
      { result := .error (mkError "Document URL is required for ChatPDF upload"),
        cache := [], uploadCalls := 0 } :=
  ⟨by decide, (getSourceId_no_cache_on_error [] exDocNoUrl uploadOk).2.1
    (by decide) (by decide)⟩

/-- C3: when the primary backend fails with a retryable error and the ChatPDF
fallback also fails, query rejects with the single combined BackendError whose
message contains both underlying messages and which has canRetry false and
suggestFallback false. -/
theorem query_both_fail_combined (cfg : EnvConfig) (env : QueryEnv) (cache : CPCache)
    (options : QueryOptions) (pe fe : JsError) (pm fm : String)
    (hforced : shouldUseChatPDFAsPrimary cfg = false)
    (hprim : env.primary = .error pe)
    (hsvc : chatPDFServicePresent cfg = true)
    (hretry : shouldUseFallback pe = true)
    (hfb : (queryWithChatPDF (chatPDFServicePresent cfg) cache env.upload env.msg
        env.extraction options.message options.documentId options.documentData
        env.now).result = .error fe)
    (hpE : pe.isError = true) (hpm : pe.message = some pm)
    (hfE : fe.isError = true) (hfm : fe.message = some fm) :
    (query cfg env cache options).result = .error (.backend (createFallbackError pe fe))
    ∧ (createFallbackError pe fe).canRetry = false
    ∧ (createFallbackError pe fe).suggestFallback = false
    ∧ substrB pm (createFallbackError pe fe).error = true
    ∧ substrB fm (createFallbackError pe fe).error = true := by
  have herr : (createFallbackError pe fe).error =
      "Both services failed. Primary: " ++ pm ++ ". Fallback: " ++ fm := by
    simp [createFallbackError, hpE, hpm, hfE, hfm]
  refine ⟨?_, by simp [createFallbackError], by simp [createFallbackError], ?_, ?_⟩
  · rw [hsvc] at hfb
    simp only [query, hforced, hprim, hsvc, hretry, Bool.true_and, Bool.false_eq_true,
      if_false, if_true]
    rw [hfb]
  · rw [herr]
    exact substr_left _ _ _ _
  · rw [herr]
    exact substr_right _ _ _ _

/-- C3 witness: a concrete 503 primary failure followed by a failing upload in
the fallback produces the combined terminal error. -/
theorem query_both_fail_combined_witness :
    shouldUseFallback err503 = true ∧
    ((query cfgKeyOnly envBothFail [] exOpts).result =
        .error (.backend (createFallbackError err503 feUpload))
      ∧ (createFallbackError err503 feUpload).canRetry = false
      ∧ (createFallbackError err503 feUpload).suggestFallback = false
      ∧ substrB "Primary backend error: 503 Service Unavailable"
          (createFallbackError err503 feUpload).error = true
      ∧ substrB "ChatPDF Upload Error: boom"
          (createFallbackError err503 feUpload).error = true) :=
  ⟨by decide, query_both_fail_combined cfgKeyOnly envBothFail [] exOpts err503 feUpload
    "Primary backend error: 503 Service Unavailable" "ChatPDF Upload Error: boom"
    (by decide) (by decide) (by decide) (by decide) (by decide)
    (by decide) (by decide) (by decide) (by decide)⟩

/-- C6: when the chats/message call succeeded but source extraction fails,
queryDocument still returns successfully (the degrade path never throws) and
synthesizes one coarse citation per page reference with section Page N,
exactText Content from page N and relevance medium; concretely, a raw
response with references pageNumber 5 and no enhanced sources yields exactly
one citation with page 5 and section Page 5 through queryWithChatPDF. -/
theorem queryDocument_degrade (mo : ChatMessageOutcome) (e : JsError) (di : DocumentInfo)
    (hnet : mo.netError = none) (hok : mo.ok = true) :
    queryDocument mo (.error e) true (some di) =
      .ok { content := mo.content, references := mo.references.getD [],
            sources := some ((mo.references.getD []).map (degradeRef di)) }
    ∧ (∀ ref, degradeRef di ref =
        { page := ref.pageNumber,
          sectionLabel := some ("Page " ++ toString ref.pageNumber),
          exactText := "Content from page " ++ toString ref.pageNumber,
          relevance := "medium",
          context := "Basic page reference from ChatPDF",
          highlightURL := di.url,
          name := some (jsOrStr ref.name di.name),
          bboxes := ref.bboxes })
    ∧ (queryWithChatPDF true [] uploadOk msgOk5 (.error exAssistErr)
        "q" "doc1" (some exDocData) 7).result = .ok exDegradedResponse := by
  refine ⟨?_, fun ref => rfl, by decide⟩
  simp [queryDocument, hnet, hok]

/-- C6 witness: the degrade equation instantiated at the concrete raw
response with reference page 5. -/
theorem queryDocument_degrade_witness :
    (msgOk5.netError = none ∧ msgOk5.ok = true) ∧
    queryDocument msgOk5 (.error exAssistErr) true (some exDocInfo) =
      .ok { content := msgOk5.content, references := msgOk5.references.getD [],
            sources := some ((msgOk5.references.getD []).map (degradeRef exDocInfo)) } :=
  ⟨by decide, (queryDocument_degrade msgOk5 exAssistErr exDocInfo (by decide) (by decide)).1⟩

/-- C7 counterexample: adaptBackendResponse maps a raw source with an absent
highlightURL to the empty string, which does not contain "#page=" and hence
is not of the claimed default shape documentUrl#page=page; moreover
adaptChatPDFSource drops a non-empty bboxes array. -/
theorem adapter_defaults_cex :
    (adaptBackendResponse respNoHighlight 99).sources =
      [{ page := 3, sectionLabel := "Document Section", exactText := "Text",
         relevance := "medium", context := "Context from backend analysis",
         highlightURL := "", bboxes := some [[1, 2, 3, 4]], name := some "Unknown" }]
    ∧ substrB "#page=" "" = false
    ∧ rawNoHighlight.bboxes = some [[1, 2, 3, 4]]
    ∧ (adaptChatPDFSource "https://docs.example/p.pdf" rawNoHighlight).bboxes = none := by
  decide

/-- C7 amended: the stated defaults hold per adapter — the primary/fallback
adapter defaults section to Document Section, relevance to medium, context to
its backend placeholder, an absent highlightURL to the empty string, and
passes bboxes through exactly when non-empty; the ChatPDF adapter defaults
relevance to high, context to its ChatPDF placeholder, an absent highlightURL
to documentUrl#page=page, and always omits bboxes and name. -/
theorem adapter_defaults_amended (source : RawSource) (documentUrl : String) :
    ((source.sectionLabel = none →
        (adaptBackendSource source).sectionLabel = "Document Section")
      ∧ (source.relevance = none → (adaptBackendSource source).relevance = "medium")
      ∧ (source.context = none →
          (adaptBackendSource source).context = "Context from backend analysis")
      ∧ (source.highlightURL = none → (adaptBackendSource source).highlightURL = "")
      ∧ ((adaptBackendSource source).bboxes = none ↔
          (source.bboxes = none ∨ source.bboxes = some []))
      ∧ (∀ bs, source.bboxes = some bs → bs ≠ [] →
          (adaptBackendSource source).bboxes = some bs))
    ∧ ((source.sectionLabel = none →
        (adaptChatPDFSource documentUrl source).sectionLabel = "Document Section")
      ∧ (source.relevance = none → (adaptChatPDFSource documentUrl source).relevance = "high")
      ∧ (source.context = none →
          (adaptChatPDFSource documentUrl source).context = "Context from ChatPDF analysis")
      ∧ (source.highlightURL = none → (adaptChatPDFSource documentUrl source).highlightURL =
          documentUrl ++ "#page=" ++ optIntToTemplate source.page)
      ∧ (adaptChatPDFSource documentUrl source).bboxes = none
      ∧ (adaptChatPDFSource documentUrl source).name = none) := by
  refine ⟨⟨?_, ?_, ?_, ?_, ?_, ?_⟩, ⟨?_, ?_, ?_, ?_, rfl, rfl⟩⟩ <;>
    try (intro h; simp [adaptBackendSource, adaptChatPDFSource, jsOrStr, h])
  · cases hb : source.bboxes with
    | none => simp [adaptBackendSource, hb]
    | some bs => cases bs <;> simp [adaptBackendSource, hb]
  · intro bs hb hne
    simp [adaptBackendSource, hb, List.length_pos.mpr hne]

/-- C7 amended witness: the amended defaults at a concrete all-absent source. -/
theorem adapter_defaults_amended_witness :
    rawEmpty.sectionLabel = none ∧
    (adaptBackendSource rawEmpty).sectionLabel = "Document Section" :=
  ⟨by decide, (adapter_defaults_amended rawEmpty "u").1.1 (by decide)⟩

/-- C8 counterexample: a raw backend response carrying a source with page -1
is normalized to a citation list containing a negative page. -/
theorem citations_page_cex :
    ((adaptBackendResponse respNegPage 0).sources.all (fun c => decide (0 ≤ c.page))) = false
    ∧ (adaptBackendResponse respNegPage 0).sources = [adaptBackendSource rawNegPage]
    ∧ (adaptBackendSource rawNegPage).page = -1 := by
  decide

/-- C8 amended: every normalized citation has a non-negative page provided
every raw page is absent or non-negative (absent pages default to 0, negative
raw pages pass through unclamped), and a citation's exactText is empty only
when the raw source supplied neither exactText nor content, its section then
being the raw section or the synthesized Document Section placeholder. -/
theorem citations_invariant_amended (source : RawSource) (resp : RawBackendResponse)
    (now : Int) :
    ((∀ p, source.page = some p → 0 ≤ p) → 0 ≤ (adaptBackendSource source).page)
    ∧ ((adaptBackendSource source).exactText = "" →
        (source.exactText = none ∨ source.exactText = some "")
        ∧ (source.content = none ∨ source.content = some ""))
    ∧ (source.sectionLabel = none →
        (adaptBackendSource source).sectionLabel = "Document Section")
    ∧ ((∀ s ∈ resp.sources.getD [], ∀ p, s.page = some p → 0 ≤ p) →
        ∀ c ∈ (adaptBackendResponse resp now).sources, 0 ≤ c.page) := by
  refine ⟨?_, ?_, ?_, ?_⟩
  · intro h
    cases hp : source.page with
    | none => simp [adaptBackendSource, jsOrInt, hp]
    | some p =>
      have := h p hp
      by_cases h0 : p = 0 <;> simp [adaptBackendSource, jsOrInt, hp, h0] <;> omega
  · intro h
    cases he : source.exactText with
    | none =>
      cases hc : source.content with
      | none => simp
      | some c =>
        simp only [adaptBackendSource, jsOrStr, he, hc] at h
        by_cases hc0 : c = "" <;> simp_all
    | some t =>
      cases hc : source.content with
      | none =>
        simp only [adaptBackendSource, jsOrStr, he, hc] at h
        by_cases ht0 : t = "" <;> simp_all
      | some c =>
        simp only [adaptBackendSource, jsOrStr, he, hc] at h
        by_cases ht0 : t = "" <;> by_cases hc0 : c = "" <;> simp_all
  · intro h
    simp [adaptBackendSource, jsOrStr, h]
  · intro h c hc
    simp only [adaptBackendResponse, List.mem_map] at hc
    obtain ⟨s, hs, rfl⟩ := hc
    have hsp := h s hs
    cases hp : s.page with
    | none => simp [adaptBackendSource, jsOrInt, hp]
    | some p =>
      have := hsp p hp
      by_cases h0 : p = 0 <;> simp [adaptBackendSource, jsOrInt, hp, h0] <;> omega

/-- C8 amended witness: the non-negativity conclusion at a concrete raw
source with page 3. -/
theorem citations_invariant_amended_witness :
    rawPos.page = some 3 ∧ 0 ≤ (adaptBackendSource rawPos).page :=
  ⟨by decide, (citations_invariant_amended rawPos respNegPage 0).1
    (by intro p hp; simp only [rawPos] at hp; simp at hp; omega)⟩

/-- C9: without an API key the third-party provider is disabled everywhere:
no service instance exists, isChatPDFEnabled is false, every query performs
zero ChatPDF network calls (including when configuration forces the provider
as primary), and every structured error the orchestrator raises has
suggestFallback false. -/
theorem chatpdf_disabled_without_key (cfg : EnvConfig) (env : QueryEnv) (cache : CPCache)
    (options : QueryOptions) (hkey : cfg.VITE_CHATPDF_ACCESS_KEY = none) :
    chatPDFServicePresent cfg = false
    ∧ isChatPDFEnabled cfg = false
    ∧ (query cfg env cache options).chatNetCalls = 0
    ∧ (∀ be, (query cfg env cache options).result = .error (.backend be) →
        be.suggestFallback = false) := by
  have hsvc : chatPDFServicePresent cfg = false := by
    simp [chatPDFServicePresent, hkey, jsTruthyOpt]
  refine ⟨hsvc, by simp [isChatPDFEnabled, hkey, jsTruthyOpt], ?_, ?_⟩
  · unfold query
    by_cases hforced : shouldUseChatPDFAsPrimary cfg = true
    · simp [hforced, hsvc, queryWithChatPDF]
    · simp only [Bool.not_eq_true] at hforced
      cases hp : env.primary with
      | ok r => simp [hforced, hp]
      | error pe => simp [hforced, hp, hsvc]
  · intro be
    unfold query
    by_cases hforced : shouldUseChatPDFAsPrimary cfg = true
    · simp [hforced, hsvc, queryWithChatPDF, liftJsResult]
    · simp only [Bool.not_eq_true] at hforced
      cases hp : env.primary with
      | ok r => simp [hforced, hp]
      | error pe =>
        simp only [hforced, hp, hsvc, Bool.false_and, Bool.false_eq_true, if_false]
        intro h
        simp only [Except.error.injEq, Thrown.backend.injEq] at h
        subst h
        simp [createBackendError, hsvc]

/-- C9 witness: a configuration that forces the provider as primary but has
no API key still performs zero ChatPDF network calls. -/
theorem chatpdf_disabled_without_key_witness :
    cfgNoKey.VITE_CHATPDF_ACCESS_KEY = none ∧
    (query cfgNoKey envPrimaryOk [] exOpts).chatNetCalls = 0 :=
  ⟨by decide, (chatpdf_disabled_without_key cfgNoKey envPrimaryOk [] exOpts (by decide)).2.2.1⟩

/-- C10: the LLM citation adapter cost is exactly
(inputTokens * 0.8 + outputTokens * 4) / 1000000, equal to 0.0028 for 1000
input and 500 output tokens, positive whenever any tokens were consumed, and
adaptAnthropicResponse reports exactly this cost. -/
theorem anthropic_cost_spec :
    anthropicCost 1000 500 = 0.0028
    ∧ (∀ inputTokens outputTokens : ℕ, 0 < inputTokens + outputTokens →
        0 < anthropicCost inputTokens outputTokens)
    ∧ (∀ cr documentUrl inputTokens outputTokens now,
        (adaptAnthropicResponse cr documentUrl inputTokens outputTokens now).cost =
          some (anthropicCost inputTokens outputTokens)) := by
  refine ⟨by norm_num [anthropicCost], ?_, fun cr u i o n => rfl⟩
  intro i o h
  unfold anthropicCost
  apply div_pos
  · have hi : (0 : ℚ) ≤ (i : ℚ) := by positivity
    have ho : (0 : ℚ) ≤ (o : ℚ) := by positivity
    have hio : (0 : ℚ) < (i : ℚ) + (o : ℚ) := by exact_mod_cast h
    nlinarith
  · norm_num

/-- C10 witness: the positivity clause at the concrete token counts of the
specification example. -/
theorem anthropic_cost_spec_witness :
    0 < 1000 + 500 ∧ 0 < anthropicCost 1000 500 :=
  ⟨by decide, anthropic_cost_spec.2.1 1000 500 (by decide)⟩
